import Mathlib

/-!
# Slingshot Flyer — verification of the flight-simulation core

Shallow embedding of the game logic of `src/src/config/constants.ts`
(constants, the per-tick physics integrator `updatePhysics`, launch/input
handlers, progress persistence, checkpoint unlocking, obstacle collision)
and of the upgrade catalog of `src/src/config/upgradeData.ts`.

Conventions of the embedding:
* JavaScript numbers are modelled as rationals (`ℚ`); coin amounts and
  upgrade costs, which are integer-valued throughout the source, as `ℤ`.
* `velocity.length() > c` / `< c` guards (which involve a square root)
  are encoded by comparing squares: for nonnegative `c`,
  `length v > c ↔ lengthSq v > c^2`, so the embedding is exact.
* Calls into the platform that produce irrational or random values
  (`Math.sin`/`Math.cos` of the launch angle, `Math.random()`) are taken
  as explicit inputs of the corresponding functions.
* The renderer-derived plane bounding box (`THREE.Box3.setFromObject`)
  is modelled as an axis-aligned box centred on the plane position with
  an arbitrary half-extent input.
-/

/-! ## Constants (src/src/config/constants.ts, lines 1-42) -/

def GRAVITY : ℚ := -20
def BASE_DRAG : ℚ := 1/50          -- 0.02
def BOUNCE_DAMPING : ℚ := 3/5      -- 0.6
def TUMBLE_SLOWDOWN : ℚ := 49/50   -- 0.98
def MIN_PULL_DISTANCE : ℚ := 1/2
def MAX_PULL_DISTANCE : ℚ := 10
def LAUNCH_POWER_MULTIPLIER : ℚ := 8
def PLANE_HEIGHT : ℚ := 3/10

/-- Zone start positions along the travel (z) axis: `ZONES` in constants.ts. -/
def ZONE_CITY_START : ℚ := 100
def ZONE_DESERT_START : ℚ := 1000
def ZONE_FOREST_START : ℚ := 3000
/-- Victory threshold: `plane.position.z >= 6000` in `updatePhysics`. -/
def VICTORY_Z : ℚ := 6000

/-! ## Vectors -/

structure Vec3 where
  x : ℚ
  y : ℚ
  z : ℚ
deriving DecidableEq, Repr

namespace Vec3

def scale (k : ℚ) (v : Vec3) : Vec3 := ⟨k * v.x, k * v.y, k * v.z⟩

/-- Squared euclidean length; `velocity.length()` squared. -/
def lengthSq (v : Vec3) : ℚ := v.x * v.x + v.y * v.y + v.z * v.z

theorem lengthSq_nonneg (v : Vec3) : 0 ≤ v.lengthSq := by
  have hx : 0 ≤ v.x * v.x := mul_self_nonneg _
  have hy : 0 ≤ v.y * v.y := mul_self_nonneg _
  have hz : 0 ≤ v.z * v.z := mul_self_nonneg _
  unfold lengthSq; linarith

end Vec3

/-! ## Upgrade catalog (src/src/config/upgradeData.ts)

Each upgrade kind has a fixed per-tier stat shape in the data, so tiers are
modelled by per-kind structures (spec §3: effect keys are upgrade-specific;
an absent key means no effect). -/

inductive UpgradeKey | wings | wheels | tail | aerodynamic | slingshot | boosters
deriving DecidableEq, Repr

structure WingsTier where
  cost : ℤ
  lift : ℚ
  control : ℚ
deriving DecidableEq, Repr

structure WheelsTier where
  cost : ℤ
  friction : ℚ
deriving DecidableEq, Repr

structure TailTier where
  cost : ℤ
  stability : ℚ
  pitch : ℚ
deriving DecidableEq, Repr

structure AeroTier where
  cost : ℤ
  dragReduction : ℚ
deriving DecidableEq, Repr

structure SlingshotTier where
  cost : ℤ
  power : ℚ
deriving DecidableEq, Repr

structure BoosterTier where
  cost : ℤ
  uses : ℚ
  boost : ℚ
deriving DecidableEq, Repr

def wingsTiers : List WingsTier :=
  [⟨100, 1/10, 1/10⟩, ⟨250, 3/20, 3/20⟩, ⟨500, 1/5, 1/5⟩, ⟨800, 1/4, 1/4⟩,
   ⟨1200, 3/10, 3/10⟩, ⟨1800, 7/20, 7/20⟩, ⟨2500, 2/5, 2/5⟩, ⟨3500, 9/20, 9/20⟩,
   ⟨5000, 1/2, 1/2⟩, ⟨7500, 3/5, 3/5⟩]

def wheelsTiers : List WheelsTier :=
  [⟨150, 9/10⟩, ⟨350, 17/20⟩, ⟨600, 4/5⟩, ⟨900, 3/4⟩, ⟨1300, 7/10⟩,
   ⟨1900, 13/20⟩, ⟨2700, 3/5⟩, ⟨3800, 11/20⟩, ⟨5200, 1/2⟩, ⟨7000, 9/20⟩]

def tailTiers : List TailTier :=
  [⟨200, 1/10, 1/10⟩, ⟨400, 3/20, 3/20⟩, ⟨700, 1/5, 1/5⟩, ⟨1100, 1/4, 1/4⟩,
   ⟨1600, 3/10, 3/10⟩, ⟨2200, 7/20, 7/20⟩, ⟨3000, 2/5, 2/5⟩, ⟨4000, 9/20, 9/20⟩,
   ⟨5500, 1/2, 1/2⟩, ⟨7500, 3/5, 3/5⟩]

def aerodynamicTiers : List AeroTier :=
  [⟨100, 1/20⟩, ⟨200, 1/10⟩, ⟨400, 3/20⟩, ⟨700, 1/5⟩, ⟨1100, 1/4⟩,
   ⟨1600, 3/10⟩, ⟨2200, 7/20⟩, ⟨3000, 2/5⟩, ⟨4000, 9/20⟩, ⟨5500, 1/2⟩]

def slingshotTiers : List SlingshotTier :=
  [⟨50, 11/10⟩, ⟨120, 6/5⟩, ⟨250, 27/20⟩, ⟨450, 3/2⟩, ⟨750, 17/10⟩,
   ⟨1100, 19/10⟩, ⟨1600, 21/10⟩, ⟨2300, 12/5⟩, ⟨3200, 27/10⟩, ⟨4500, 3⟩]

def boosterTiers : List BoosterTier :=
  [⟨300, 1, 15⟩, ⟨600, 2, 18⟩, ⟨1000, 3, 21⟩, ⟨1500, 4, 24⟩, ⟨2200, 5, 27⟩,
   ⟨3000, 6, 30⟩, ⟨4000, 7, 33⟩, ⟨5200, 8, 36⟩, ⟨6800, 9, 39⟩, ⟨9000, 10, 45⟩]

/-- `maxTier` of each upgrade definition (all 10 in the catalog data). -/
def maxTier : UpgradeKey → ℕ
  | .wings => 10
  | .wheels => 10
  | .tail => 10
  | .aerodynamic => 10
  | .slingshot => 10
  | .boosters => 10

/-- `requires` field of each upgrade definition. -/
def requiresOf : UpgradeKey → Option UpgradeKey
  | .wings => none
  | .wheels => some .wings
  | .tail => some .wings
  | .aerodynamic => some .wings
  | .slingshot => none
  | .boosters => some .wings

/-- Cost column of `UPGRADES[key].tiers`, derived from the tier data. -/
def costsOf : UpgradeKey → List ℤ
  | .wings => wingsTiers.map (·.cost)
  | .wheels => wheelsTiers.map (·.cost)
  | .tail => tailTiers.map (·.cost)
  | .aerodynamic => aerodynamicTiers.map (·.cost)
  | .slingshot => slingshotTiers.map (·.cost)
  | .boosters => boosterTiers.map (·.cost)

/-- `nextCost(key, level)`: cost of `tiers[level]`, `none` at or past `maxTier`
(spec §4.1; in `purchaseUpgrade` the `currentTier >= maxTier` guard precedes
the `tiers[currentTier].cost` read). -/
def nextCost (k : UpgradeKey) (level : ℕ) : Option ℤ :=
  if level ≥ maxTier k then none else (costsOf k).get? level

/-! ## Player state -/

/-- The module-level `upgrades` object: tier owned per upgrade key. -/
structure Upgrades where
  wings : ℕ
  wheels : ℕ
  tail : ℕ
  aerodynamic : ℕ
  slingshot : ℕ
  boosters : ℕ
deriving DecidableEq, Repr

namespace Upgrades

def get (u : Upgrades) : UpgradeKey → ℕ
  | .wings => u.wings
  | .wheels => u.wheels
  | .tail => u.tail
  | .aerodynamic => u.aerodynamic
  | .slingshot => u.slingshot
  | .boosters => u.boosters

def set (u : Upgrades) : UpgradeKey → ℕ → Upgrades
  | .wings, n => { u with wings := n }
  | .wheels, n => { u with wheels := n }
  | .tail, n => { u with tail := n }
  | .aerodynamic, n => { u with aerodynamic := n }
  | .slingshot, n => { u with slingshot := n }
  | .boosters, n => { u with boosters := n }

/-- Initial module value: all tiers 0 ("not purchased"). -/
def initial : Upgrades := ⟨0, 0, 0, 0, 0, 0⟩

theorem get_set_same (u : Upgrades) (k : UpgradeKey) (n : ℕ) :
    (u.set k n).get k = n := by cases k <;> rfl

theorem get_set_other (u : Upgrades) (k k' : UpgradeKey) (n : ℕ) (h : k' ≠ k) :
    (u.set k n).get k' = u.get k' := by
  cases k <;> cases k' <;> first | rfl | exact absurd rfl h

end Upgrades

/-- The module-level `checkpoints` object. -/
structure Checkpoints where
  runway : Bool
  city : Bool
  desert : Bool
  forest : Bool
deriving DecidableEq, Repr

/-- Initial module value: only the runway unlocked. -/
def Checkpoints.initial : Checkpoints := ⟨true, false, false, false⟩

inductive CheckpointId | runway | city | desert | forest
deriving DecidableEq, Repr

/-- `getCheckpointStartPosition()`. -/
def checkpointStartPosition : CheckpointId → ℚ
  | .city => ZONE_CITY_START
  | .desert => ZONE_DESERT_START
  | .forest => ZONE_FOREST_START
  | .runway => 0

/-- `GameState` union type. -/
inductive GState | ready | pulling | flying | crashed
deriving DecidableEq, Repr

/-- Keyboard input flags (the module-level `keys` object). -/
structure Keys where
  left : Bool
  right : Bool
  up : Bool
  down : Bool
deriving DecidableEq, Repr

/-- The module-level mutable game state of the main game file:
`gameState`, `coins`, `distance`, `boosterUsesRemaining`, `upgrades`,
`checkpoints`, `currentCheckpoint`, `highestDistanceThisRun`, `startingZ`,
the physics vectors, the plane transform, and the drag-input state. -/
structure Game where
  gameState : GState
  coins : ℤ
  distance : ℚ
  boosterUsesRemaining : ℚ
  upgrades : Upgrades
  checkpoints : Checkpoints
  currentCheckpoint : CheckpointId
  highestDistanceThisRun : ℚ
  startingZ : ℚ
  velocity : Vec3
  angularVelocity : Vec3
  planePos : Vec3
  planeRot : Vec3
  slingshotZ : ℚ
  isDragging : Bool
  pullDistance : ℚ
  launchAngle : ℚ
deriving DecidableEq, Repr

/-! ## purchaseUpgrade (constants.ts lines 1509-1534) -/

/-- `purchaseUpgrade(key)`: guards on max tier, affordability and the
`requires` prerequisite, then deducts the cost and raises the tier.
The `none` branch of the cost lookup is unreachable because the
`currentTier >= maxTier` guard runs first and every catalog tier list has
length `maxTier`. -/
def purchaseUpgrade (k : UpgradeKey) (g : Game) : Game :=
  let currentTier := g.upgrades.get k
  if currentTier ≥ maxTier k then g
  else
    match (costsOf k).get? currentTier with
    | none => g
    | some cost =>
      if g.coins < cost then g
      else
        match requiresOf k with
        | some r =>
          if g.upgrades.get r = 0 then g
          else { g with coins := g.coins - cost,
                        upgrades := g.upgrades.set k (currentTier + 1) }
        | none => { g with coins := g.coins - cost,
                           upgrades := g.upgrades.set k (currentTier + 1) }

theorem costsOf_length (k : UpgradeKey) : (costsOf k).length = maxTier k := by
  cases k <;> rfl

/-! ## Drag step (updatePhysics, constants.ts lines 1113-1120) -/

/-- `dragReduction` stat of the owned aerodynamic tier (0 if not owned). -/
def dragReductionOf (aeroLevel : ℕ) : ℚ :=
  match (if aeroLevel > 0 then aerodynamicTiers.get? (aeroLevel - 1) else none) with
  | some t => t.dragReduction
  | none => 0

/-- The scalar the drag code multiplies the velocity by:
`1 - dragForce * deltaTime` with `dragForce = speed * speed * effectiveDrag`
and `effectiveDrag = BASE_DRAG * (1 - dragReduction)`. -/
def dragFactor (aeroLevel : ℕ) (dt : ℚ) (v : Vec3) : ℚ :=
  1 - v.lengthSq * (BASE_DRAG * (1 - dragReductionOf aeroLevel)) * dt

/-- The drag update of `updatePhysics`: `velocity.multiplyScalar(1 - dragForce
* deltaTime)` guarded by `speed > 0` (encoded as `lengthSq > 0`). -/
def dragStep (aeroLevel : ℕ) (dt : ℚ) (v : Vec3) : Vec3 :=
  if 0 < v.lengthSq then Vec3.scale (dragFactor aeroLevel dt v) v else v

/-! ## Collision detection (constants.ts lines 735-754) -/

structure Box3 where
  min : Vec3
  max : Vec3
deriving DecidableEq, Repr

/-- `THREE.Box3.intersectsBox`: overlap on all three axis intervals. -/
def Box3.intersectsBox (a b : Box3) : Bool :=
  !(decide (b.max.x < a.min.x) || decide (b.min.x > a.max.x) ||
    decide (b.max.y < a.min.y) || decide (b.min.y > a.max.y) ||
    decide (b.max.z < a.min.z) || decide (b.min.z > a.max.z))

/-- World obstacle: mesh travel-axis position and (static) bounding box. -/
structure Obstacle where
  posZ : ℚ
  box : Box3
deriving DecidableEq, Repr

/-- Plane bounding box as an AABB centred on the plane position with
renderer-derived half-extents (see module docstring). -/
def boxAt (center halfExt : Vec3) : Box3 :=
  ⟨⟨center.x - halfExt.x, center.y - halfExt.y, center.z - halfExt.z⟩,
   ⟨center.x + halfExt.x, center.y + halfExt.y, center.z + halfExt.z⟩⟩

/-- `checkObstacleCollisions` search: skip obstacles farther than 50 units
along z, return the first whose box overlaps the plane box. -/
def firstCollision (planeBox : Box3) (planeZ : ℚ) (obs : List Obstacle) :
    Option Obstacle :=
  obs.find? fun o =>
    !(decide (|o.posZ - planeZ| > 50)) && planeBox.intersectsBox o.box

/-! ## Crash / victory settlement (constants.ts lines 1235-1270) -/

/-- `crash()` coin award: `Math.floor(distance)`. -/
def crashCoinsEarned (distance : ℚ) : ℤ := ⌊distance⌋

/-- `victory()` coin award: `Math.floor(distance) + 10000`. -/
def victoryCoinsEarned (distance : ℚ) : ℤ := ⌊distance⌋ + 10000

/-- `crash()`: state to crashed, add the award (the save it issues is
counted by the caller). -/
def crash (g : Game) : Game :=
  { g with gameState := .crashed,
           coins := g.coins + crashCoinsEarned g.distance }

/-- `victory()`: same terminal state, larger award. -/
def victory (g : Game) : Game :=
  { g with gameState := .crashed,
           coins := g.coins + victoryCoinsEarned g.distance }

/-! ## Checkpoint unlocking (constants.ts lines 1384-1409) -/

/-- `checkAndUnlockCheckpoints()`: unlock each zone whose start the absolute
position has reached and that is still locked; report whether a save was
issued (`saveProgress` is called iff some checkpoint was newly unlocked). -/
def checkAndUnlockCheckpoints (g : Game) : Game × Bool :=
  let absolutePosition := g.startingZ + g.distance
  let u1 := decide (ZONE_CITY_START ≤ absolutePosition) && !g.checkpoints.city
  let u2 := decide (ZONE_DESERT_START ≤ absolutePosition) && !g.checkpoints.desert
  let u3 := decide (ZONE_FOREST_START ≤ absolutePosition) && !g.checkpoints.forest
  ({ g with checkpoints :=
      { g.checkpoints with
        city := g.checkpoints.city || u1,
        desert := g.checkpoints.desert || u2,
        forest := g.checkpoints.forest || u3 } },
   u1 || u2 || u3)

/-! ## Per-tick integration (updatePhysics, constants.ts lines 1057-1175)

`integrate` is the part of `updatePhysics` before the checkpoint, collision,
victory and stop checks: controls, gravity, lift, drag, position update,
corridor clamp, tumble, ground contact, distance bookkeeping — in that order.
`rand` is the `Math.random()` sample of the no-wheels hard-landing branch. -/
def integrate (dt : ℚ) (keys : Keys) (rand : ℚ) (g : Game) : Game :=
  let wingStats := if g.upgrades.wings > 0 then
      wingsTiers.get? (g.upgrades.wings - 1) else none
  let tailStats := if g.upgrades.tail > 0 then
      tailTiers.get? (g.upgrades.tail - 1) else none
  let wheelStats := if g.upgrades.wheels > 0 then
      wheelsTiers.get? (g.upgrades.wheels - 1) else none
  let hasWings := g.upgrades.wings > 0
  -- lateral control (left and right are applied as two sequential ifs)
  let wingControl := match wingStats with | some t => t.control * 20 | none => 0
  let lateralControl := 1/2 + wingControl
  let vx1 := if keys.left then g.velocity.x + lateralControl * dt else g.velocity.x
  let rz1 := if keys.left then max (g.planeRot.z - 2 * dt) (-3/10) else g.planeRot.z
  let vx2 := if keys.right then vx1 - lateralControl * dt else vx1
  let rz2 := if keys.right then min (rz1 + 2 * dt) (3/10) else rz1
  -- pitch control: requires wings + tail
  let pitched :=
    match tailStats with
    | some t =>
      if hasWings then
        let pitchControl := t.pitch * 15
        let vyU := if keys.up then g.velocity.y + pitchControl * dt else g.velocity.y
        let rxU := if keys.up then max (g.planeRot.x - dt) (-1/2) else g.planeRot.x
        let vyD := if keys.down then vyU - pitchControl * dt * (1/2) else vyU
        let rxD := if keys.down then min (rxU + dt) (1/2) else rxU
        (vyD, rxD)
      else (g.velocity.y, g.planeRot.x)
    | none => (g.velocity.y, g.planeRot.x)
  let vy1 := pitched.1
  let rx1 := pitched.2
  -- gravity
  let vy2 := vy1 + GRAVITY * dt
  -- lift (wings owned and forward speed above threshold)
  let vy3 :=
    match wingStats with
    | some t => if g.velocity.z > 5 then vy2 + t.lift * g.velocity.z * (1/2) * dt else vy2
    | none => vy2
  -- drag
  let v4 := dragStep g.upgrades.aerodynamic dt ⟨vx2, vy3, g.velocity.z⟩
  -- position update and corridor clamp
  let posX := max (-50) (min 50 (g.planePos.x + v4.x * dt))
  let posY1 := g.planePos.y + v4.y * dt
  let posZ := g.planePos.z + v4.z * dt
  -- tumble / stabilization
  let tumbled :=
    if hasWings then
      let av' := Vec3.scale (19/20) g.angularVelocity
      let rx' := rx1 + av'.x * dt * (3/10)
      let rz' := if !keys.left && !keys.right then rz2 * (19/20) else rz2
      (av', rx', rz')
    else
      (g.angularVelocity, rx1 + g.angularVelocity.x * dt, rz2 + g.angularVelocity.z * dt)
  let av1 := tumbled.1
  let rx2 := tumbled.2.1
  let rz3 := tumbled.2.2
  -- ground contact
  let grounded :=
    if posY1 ≤ PLANE_HEIGHT / 2 then
      if v4.y < -1 then
        let vyB := -v4.y * BOUNCE_DAMPING
        match wheelStats with
        | some w => (PLANE_HEIGHT / 2, vyB, v4.z * w.friction,
                     (⟨0, 0, 0⟩ : Vec3), (0 : ℚ), (0 : ℚ))
        | none => (PLANE_HEIGHT / 2, vyB, v4.z * TUMBLE_SLOWDOWN,
                   { av1 with x := av1.x + (rand - 1/2) * 3 }, rx2, rz3)
      else
        match wheelStats with
        | some _ => (PLANE_HEIGHT / 2, (0 : ℚ), v4.z * (199/200), av1, rx2, rz3)
        | none => (PLANE_HEIGHT / 2, (0 : ℚ), v4.z * (49/50), av1, rx2, rz3)
    else (posY1, v4.y, v4.z, av1, rx2, rz3)
  let posY := grounded.1
  let vyF := grounded.2.1
  let vzF := grounded.2.2.1
  let avF := grounded.2.2.2.1
  let rxF := grounded.2.2.2.2.1
  let rzF := grounded.2.2.2.2.2
  -- distance bookkeeping
  { g with velocity := ⟨v4.x, vyF, vzF⟩,
           angularVelocity := avF,
           planePos := ⟨posX, posY, posZ⟩,
           planeRot := ⟨rxF, g.planeRot.y, rzF⟩,
           distance := max 0 (posZ - g.startingZ),
           highestDistanceThisRun := max g.highestDistanceThisRun posZ }

/-- `updatePhysics(deltaTime)`: the whole tick while `Flying` — integration,
checkpoint unlock, obstacle collision, victory check, stop check, in source
order.  The second component counts the `saveProgress` calls issued during
the tick (checkpoint unlock, `crash()`, `victory()`). -/
def updatePhysics (dt : ℚ) (keys : Keys) (halfExt : Vec3)
    (obstacles : List Obstacle) (rand : ℚ) (g : Game) : Game × ℕ :=
  if g.gameState ≠ .flying then (g, 0)
  else
    let g1 := integrate dt keys rand g
    let unlockRes := checkAndUnlockCheckpoints g1
    let g2 := unlockRes.1
    let s1 : ℕ := if unlockRes.2 then 1 else 0
    let planeBox := boxAt g2.planePos halfExt
    let hit := (firstCollision planeBox g2.planePos.z obstacles).isSome
    let g3 := if hit then crash g2 else g2
    let s2 : ℕ := if hit then 1 else 0
    if VICTORY_Z ≤ g3.planePos.z then (victory g3, s1 + s2 + 1)
    else if g3.velocity.lengthSq < 1/4 ∧ g3.planePos.y ≤ PLANE_HEIGHT / 2 + 1/10 then
      (crash g3, s1 + s2 + 1)
    else (g3, s1 + s2)

/-! ## Launch and drag-input handlers (constants.ts lines 796-853, 1006-1055)

`sinA`/`cosA` are `Math.sin`/`Math.cos` of the effective launch angle and
`rand` the `Math.random()` tumble seed, supplied as inputs. -/

/-- `launch()`. -/
def launch (sinA cosA rand : ℚ) (g : Game) : Game :=
  let slingshotMultiplier :=
    if g.upgrades.slingshot > 0 then
      match slingshotTiers.get? (g.upgrades.slingshot - 1) with
      | some t => t.power
      | none => 1
    else 1
  let minPower : ℚ := 20
  let basePower := g.pullDistance * LAUNCH_POWER_MULTIPLIER
  let power := max minPower basePower * slingshotMultiplier
  let startZ := checkpointStartPosition g.currentCheckpoint
  let tumbleMultiplier : ℚ := if g.upgrades.wings > 0 then 1/10 else 1/2
  { g with gameState := .flying,
           startingZ := startZ,
           planePos := ⟨0, 3, startZ⟩,          -- slingshotHeight = 3
           planeRot := ⟨0, 0, 0⟩,
           velocity := ⟨0, sinA * power, cosA * power⟩,
           angularVelocity := ⟨(rand - 1/2) * tumbleMultiplier, 0, 0⟩,
           boosterUsesRemaining :=
             if g.upgrades.boosters > 0 then
               match boosterTiers.get? (g.upgrades.boosters - 1) with
               | some t => t.uses
               | none => g.boosterUsesRemaining
             else g.boosterUsesRemaining,
           highestDistanceThisRun := 0,
           launchAngle := 1/2 }

/-- `resetPlanePosition()`: plane back at the slingshot, pull cleared. -/
def resetPlanePosition (g : Game) : Game :=
  { g with planePos := ⟨0, 3 - 1/2, g.slingshotZ⟩, pullDistance := 0 }

/-- `onMouseUp()`: release of the drag gesture. -/
def onMouseUp (sinA cosA rand : ℚ) (g : Game) : Game :=
  if !g.isDragging || g.gameState ≠ .pulling then g
  else
    let g1 := { g with isDragging := false }
    if g1.pullDistance < MIN_PULL_DISTANCE then
      { resetPlanePosition g1 with gameState := .ready }
    else launch sinA cosA rand g1

/-- The `launchAngle` assignment of `onMouseMove` (constants.ts lines
813-818): only a drag of magnitude above the dead zone (`totalDrag > 10`,
encoded on squares) re-biases the angle, clamped via
`Math.max(-1, Math.min(1, -deltaX / 200))`. -/
def updatedLaunchAngle (deltaX deltaY launchAngle : ℚ) : ℚ :=
  if deltaX ^ 2 + deltaY ^ 2 > 100 then
    let angleInfluence := max (-1) (min 1 (-deltaX / 200))
    1/2 + angleInfluence * (2/5)
  else launchAngle

/-- Effective launch angle in degrees, `15 + launchAngle * 50`
(the degree value whose radian conversion feeds `Math.sin`/`Math.cos`
in `launch()`, line 1024). -/
def launchAngleDegrees (p : ℚ) : ℚ := 15 + p * 50

/-! ## Persistence (constants.ts lines 1332-1364)

The `localStorage` blob is modelled at the `JSON.parse` boundary:
`none` = missing key, `some none` = a stored string `JSON.parse` rejects
(e.g. `"not json"`), `some (some d)` = a parsed object whose top-level
fields may be absent (the `upgrades`/`checkpoints` sub-objects, merged by
`Object.assign` in the source, are modelled whole). -/

structure RawSave where
  coins : Option ℤ
  highestDistance : Option ℚ
  upgrades : Option Upgrades
  checkpoints : Option Checkpoints
deriving DecidableEq, Repr

/-- The persistent player progress handled by `loadProgress` (module
globals `coins`, `upgrades`, `checkpoints`). -/
structure Progress where
  coins : ℤ
  upgrades : Upgrades
  checkpoints : Checkpoints
deriving DecidableEq, Repr

/-- Module initial values: coins 0, no upgrades, only runway unlocked. -/
def defaultProgress : Progress := ⟨0, Upgrades.initial, Checkpoints.initial⟩

/-- `loadProgress()`: a missing blob leaves the defaults; a stored string
`JSON.parse` rejects throws out of `loadProgress` (there is no try/catch);
a parsed object overrides exactly the fields it carries (`data.coins || 0`,
`Object.assign` for `upgrades`/`checkpoints`). -/
def loadProgress : Option (Option RawSave) → Except Unit Progress
  | none => .ok defaultProgress
  | some none => .error ()
  | some (some d) =>
      .ok { coins := d.coins.getD 0,
            upgrades := d.upgrades.getD defaultProgress.upgrades,
            checkpoints := d.checkpoints.getD defaultProgress.checkpoints }

/-- `getSavedHighestDistance()`: `data.highestDistance || 0` on a stored
blob, 0 when missing; like `loadProgress` it throws on a malformed blob. -/
def getSavedHighestDistance : Option (Option RawSave) → Except Unit ℚ
  | none => .ok 0
  | some none => .error ()
  | some (some d) => .ok (d.highestDistance.getD 0)

/-- `saveProgress()`: writes the blob with
`highestDistance: Math.max(distance, getSavedHighestDistance())`. -/
def saveProgress (distance : ℚ) (coins : ℤ) (upgrades : Upgrades)
    (checkpoints : Checkpoints) (store : Option (Option RawSave)) :
    Except Unit RawSave :=
  (getSavedHighestDistance store).map fun prev =>
    { coins := some coins,
      highestDistance := some (max distance prev),
      upgrades := some upgrades,
      checkpoints := some checkpoints }

/-! ## Sample state for concrete instantiations -/

/-- A concrete game state matching the module initial values of the source
(`gameState = "ready"`, `coins = 0`, plane at `(0, 1, 0)`, no upgrades,
only runway unlocked). -/
def baseGame : Game :=
  { gameState := .ready, coins := 0, distance := 0, boosterUsesRemaining := 0,
    upgrades := Upgrades.initial, checkpoints := Checkpoints.initial,
    currentCheckpoint := .runway, highestDistanceThisRun := 0, startingZ := 0,
    velocity := ⟨0, 0, 0⟩, angularVelocity := ⟨0, 0, 0⟩, planePos := ⟨0, 1, 0⟩,
    planeRot := ⟨0, 0, 0⟩, slingshotZ := 0, isDragging := false,
    pullDistance := 0, launchAngle := 1/2 }

/-! ## Helper lemmas about purchaseUpgrade -/

theorem purchase_noop_of_max (k : UpgradeKey) (g : Game)
    (h : maxTier k ≤ g.upgrades.get k) : purchaseUpgrade k g = g := by
  simp only [purchaseUpgrade]
  rw [if_pos h]

theorem get?_costsOf_lt (k : UpgradeKey) {n : ℕ} {c : ℤ}
    (hc : (costsOf k).get? n = some c) : n < maxTier k := by
  rw [← costsOf_length k]
  exact (List.get?_eq_some.mp hc).1

theorem purchase_noop_of_poor (k : UpgradeKey) (g : Game) (c : ℤ)
    (hc : (costsOf k).get? (g.upgrades.get k) = some c)
    (hpoor : g.coins < c) : purchaseUpgrade k g = g := by
  have hlt := get?_costsOf_lt k hc
  simp only [purchaseUpgrade]
  rw [if_neg (by omega), hc]
  simp only [if_pos hpoor]

theorem purchase_noop_of_requires (k : UpgradeKey) (g : Game) (r : UpgradeKey)
    (hr : requiresOf k = some r) (h0 : g.upgrades.get r = 0) :
    purchaseUpgrade k g = g := by
  simp only [purchaseUpgrade]
  by_cases hmax : g.upgrades.get k ≥ maxTier k
  · rw [if_pos hmax]
  · rw [if_neg hmax]
    cases hcost : (costsOf k).get? (g.upgrades.get k) with
    | none => rfl
    | some c =>
      by_cases hpoor : g.coins < c
      · simp only [if_pos hpoor]
      · simp only [if_neg hpoor, hr]
        rw [if_pos h0]

theorem purchase_success_eq (k : UpgradeKey) (g : Game) (c : ℤ)
    (hc : (costsOf k).get? (g.upgrades.get k) = some c)
    (hcoins : c ≤ g.coins)
    (hreq : ∀ r, requiresOf k = some r → 1 ≤ g.upgrades.get r) :
    purchaseUpgrade k g =
      { g with coins := g.coins - c,
               upgrades := g.upgrades.set k (g.upgrades.get k + 1) } := by
  have hlt := get?_costsOf_lt k hc
  simp only [purchaseUpgrade]
  rw [if_neg (by omega), hc]
  simp only [if_neg (not_lt.mpr hcoins)]
  cases hr : requiresOf k with
  | none => rfl
  | some r =>
    have : g.upgrades.get r ≠ 0 := by have := hreq r hr; omega
    simp only [if_neg this]

/-- **C4**: `purchaseUpgrade(key)` is a no-op whenever coins are below the
next tier's cost, or the `requires` upgrade is at level 0, or the level is
already `maxTier`; otherwise the purchase succeeds (cost deducted, tier
raised by one); and a tier can be raised above 0 only with the required
upgrade at level ≥ 1. -/
theorem purchase_gating (k : UpgradeKey) (g : Game) :
    (∀ c, nextCost k (g.upgrades.get k) = some c → g.coins < c →
        purchaseUpgrade k g = g) ∧
    (nextCost k (g.upgrades.get k) = none → purchaseUpgrade k g = g) ∧
    (∀ r, requiresOf k = some r → g.upgrades.get r = 0 →
        purchaseUpgrade k g = g) ∧
    (∀ c, nextCost k (g.upgrades.get k) = some c → c ≤ g.coins →
        (∀ r, requiresOf k = some r → 1 ≤ g.upgrades.get r) →
        (purchaseUpgrade k g).coins = g.coins - c ∧
        (purchaseUpgrade k g).upgrades.get k = g.upgrades.get k + 1) ∧
    (∀ r, requiresOf k = some r → g.upgrades.get k = 0 →
        0 < (purchaseUpgrade k g).upgrades.get k → 1 ≤ g.upgrades.get r) := by
  refine ⟨?_, ?_, ?_, ?_, ?_⟩
  · intro c hc hpoor
    rw [nextCost] at hc
    split at hc
    · exact absurd hc (by simp)
    · exact purchase_noop_of_poor k g c hc hpoor
  · intro hnone
    rw [nextCost] at hnone
    split at hnone
    · next h => exact purchase_noop_of_max k g h
    · next h =>
      exfalso
      rw [List.get?_eq_none, costsOf_length] at hnone
      omega
  · exact fun r hr h0 => purchase_noop_of_requires k g r hr h0
  · intro c hc hcoins hreq
    rw [nextCost] at hc
    split at hc
    · exact absurd hc (by simp)
    · rw [purchase_success_eq k g c hc hcoins hreq]
      exact ⟨rfl, Upgrades.get_set_same _ _ _⟩
  · intro r hr h0 hpos
    by_cases hreq : 1 ≤ g.upgrades.get r
    · exact hreq
    · exfalso
      have hr0 : g.upgrades.get r = 0 := by omega
      rw [purchase_noop_of_requires k g r hr hr0] at hpos
      omega

/-- Witness for C4: with no coins and no wings owned, buying wheels
(which requires wings) is a no-op on the initial state. -/
theorem purchase_gating_witness :
    purchaseUpgrade .wheels baseGame = baseGame :=
  (purchase_gating .wheels baseGame).2.2.1 .wings rfl rfl

/-- **C10**: a successful purchase deducts exactly the tier cost, raises
exactly that key's tier by one, and leaves every other upgrade level, the
checkpoint set and the flight state (mode, position, velocity) unchanged. -/
theorem purchase_frame (k : UpgradeKey) (g : Game) (c : ℤ)
    (hc : (costsOf k).get? (g.upgrades.get k) = some c)
    (hcoins : c ≤ g.coins)
    (hreq : ∀ r, requiresOf k = some r → 1 ≤ g.upgrades.get r) :
    (purchaseUpgrade k g).coins = g.coins - c ∧
    (purchaseUpgrade k g).upgrades.get k = g.upgrades.get k + 1 ∧
    (∀ k', k' ≠ k → (purchaseUpgrade k g).upgrades.get k' = g.upgrades.get k') ∧
    (purchaseUpgrade k g).checkpoints = g.checkpoints ∧
    (purchaseUpgrade k g).gameState = g.gameState ∧
    (purchaseUpgrade k g).planePos = g.planePos ∧
    (purchaseUpgrade k g).velocity = g.velocity := by
  rw [purchase_success_eq k g c hc hcoins hreq]
  exact ⟨rfl, Upgrades.get_set_same _ _ _,
         fun k' h => Upgrades.get_set_other _ _ _ _ h, rfl, rfl, rfl, rfl⟩

/-- Witness for C10: buying slingshot tier 1 (cost 50, no prerequisite)
with 60 coins. -/
theorem purchase_frame_witness :
    (purchaseUpgrade .slingshot { baseGame with coins := 60 }).coins = 10 ∧
    (purchaseUpgrade .slingshot { baseGame with coins := 60 }).upgrades.get
      .slingshot = 1 := by
  have h := purchase_frame .slingshot { baseGame with coins := 60 } 50 rfl
    (by decide) (fun r hr => by cases hr)
  exact ⟨h.1, h.2.1⟩


/-- **C1**: the claim that the drag step always scales velocity by a factor
in [0, 1] fails: at a reachable speed (240 = max pull 10 × power multiplier
8 × slingshot tier-10 power 3.0) with `dt` at its clamp value 0.1 and no
aerodynamic upgrade, the factor is `1 - 240² · 0.02 · 0.1 = -114.2`: the
velocity is reversed and its magnitude multiplied by 114.2. -/
theorem drag_reverses_and_amplifies :
    dragFactor 0 (1/10) ⟨0, 0, 240⟩ = -571/5 ∧
    dragStep 0 (1/10) ⟨0, 0, 240⟩ = ⟨0, 0, -27408⟩ ∧
    (dragStep 0 (1/10) ⟨0, 0, 240⟩).z < 0 ∧
    Vec3.lengthSq ⟨0, 0, 240⟩ < (dragStep 0 (1/10) ⟨0, 0, 240⟩).lengthSq := by
  have hfac : dragFactor 0 (1/10) ⟨0, 0, 240⟩ = -571/5 := by
    norm_num [dragFactor, dragReductionOf, Vec3.lengthSq, BASE_DRAG]
  have hstep : dragStep 0 (1/10) ⟨0, 0, 240⟩ = ⟨0, 0, -27408⟩ := by
    unfold dragStep
    rw [if_pos (by norm_num [Vec3.lengthSq]), hfac]
    norm_num [Vec3.scale]
  refine ⟨hfac, hstep, by rw [hstep]; norm_num, by rw [hstep]; norm_num [Vec3.lengthSq]⟩

/-- **C3** (amended): a missing blob yields the defaults and a parsed blob
overrides exactly the fields it carries, but a malformed (unparseable) blob
makes `loadProgress` throw — it does fail the caller. -/
theorem loadProgress_behaviour :
    loadProgress none = .ok defaultProgress ∧
    loadProgress (some none) = .error () ∧
    ∀ d : RawSave, loadProgress (some (some d)) =
      .ok { coins := d.coins.getD 0,
            upgrades := d.upgrades.getD defaultProgress.upgrades,
            checkpoints := d.checkpoints.getD defaultProgress.checkpoints } :=
  ⟨rfl, rfl, fun _ => rfl⟩

/-- Counterexample for C3: a stored blob that `JSON.parse` rejects (e.g. the
string `"not json"`) propagates the parse exception out of `loadProgress`
instead of returning the defaults. -/
theorem loadProgress_fails_on_malformed :
    loadProgress (some none) = .error () := rfl

/-- **C5**: on drag-release while `Pulling`, a pull distance at or above
`MIN_PULL_DISTANCE` (including exactly equal) transitions to `Flying` via
`launch()`; a pull strictly below returns to `Ready` with `pullDistance`
reset to 0 and no launch (velocity untouched). -/
theorem release_gates_launch (sinA cosA rand : ℚ) (g : Game)
    (hdrag : g.isDragging = true) (hstate : g.gameState = .pulling) :
    (MIN_PULL_DISTANCE ≤ g.pullDistance →
        (onMouseUp sinA cosA rand g).gameState = .flying) ∧
    (g.pullDistance < MIN_PULL_DISTANCE →
        (onMouseUp sinA cosA rand g).gameState = .ready ∧
        (onMouseUp sinA cosA rand g).pullDistance = 0 ∧
        (onMouseUp sinA cosA rand g).velocity = g.velocity) := by
  have hcond : (!g.isDragging || decide (g.gameState ≠ GState.pulling)) = false := by
    rw [hdrag, hstate]
    simp
  constructor
  · intro hge
    unfold onMouseUp
    rw [hcond]
    simp only [Bool.false_eq_true, if_false]
    rw [if_neg (not_lt.mpr hge)]
    rfl
  · intro hlt
    unfold onMouseUp
    rw [hcond]
    simp only [Bool.false_eq_true, if_false]
    rw [if_pos hlt]
    exact ⟨rfl, rfl, rfl⟩

/-- Witness for C5: releasing at exactly `MIN_PULL_DISTANCE` launches;
releasing just below resets to ready. -/
theorem release_gates_launch_witness :
    (onMouseUp 0 1 (1/2) { baseGame with
        gameState := .pulling, isDragging := true,
        pullDistance := 1/2 }).gameState = .flying ∧
    (onMouseUp 0 1 (1/2) { baseGame with
        gameState := .pulling, isDragging := true,
        pullDistance := 49/100 }).gameState = .ready := by
  constructor
  · exact (release_gates_launch 0 1 (1/2) _ rfl rfl).1
      (by norm_num [MIN_PULL_DISTANCE])
  · exact ((release_gates_launch 0 1 (1/2) _ rfl rfl).2
      (by norm_num [MIN_PULL_DISTANCE])).1

theorem updatedLaunchAngle_mem (dx dy p : ℚ) (h1 : 1/10 ≤ p) (h2 : p ≤ 9/10) :
    1/10 ≤ updatedLaunchAngle dx dy p ∧ updatedLaunchAngle dx dy p ≤ 9/10 := by
  unfold updatedLaunchAngle
  split_ifs with h
  · have ht1 : (-1 : ℚ) ≤ max (-1 : ℚ) (min 1 (-dx / 200)) := le_max_left _ _
    have ht2 : max (-1 : ℚ) (min 1 (-dx / 200)) ≤ 1 :=
      max_le (by norm_num) (min_le_left _ _)
    constructor <;> linarith
  · exact ⟨h1, h2⟩

/-- **C6** (amended): for any drag gesture the launch angle parameter stays
within [0.1, 0.9] and the effective angle in degrees, `15 + param * 50`,
stays within [20, 60] — hence within [15, 65] inclusive; the achievable
range is 20°–60°, not the full 15°–65°. -/
theorem launch_angle_range (dx dy p : ℚ) (h1 : 1/10 ≤ p) (h2 : p ≤ 9/10) :
    1/10 ≤ updatedLaunchAngle dx dy p ∧ updatedLaunchAngle dx dy p ≤ 9/10 ∧
    launchAngleDegrees (updatedLaunchAngle dx dy p)
      = 15 + updatedLaunchAngle dx dy p * 50 ∧
    20 ≤ launchAngleDegrees (updatedLaunchAngle dx dy p) ∧
    launchAngleDegrees (updatedLaunchAngle dx dy p) ≤ 60 ∧
    15 ≤ launchAngleDegrees (updatedLaunchAngle dx dy p) ∧
    launchAngleDegrees (updatedLaunchAngle dx dy p) ≤ 65 := by
  obtain ⟨ha, hb⟩ := updatedLaunchAngle_mem dx dy p h1 h2
  refine ⟨ha, hb, rfl, ?_, ?_, ?_, ?_⟩ <;>
    (unfold launchAngleDegrees; linarith)

/-- Counterexample for C6: the extreme rightward drag pins the parameter at
its clamp floor 0.1, giving 20° — and no gesture from a valid parameter can
produce an angle below 20°, so 15° (and symmetrically 65°) is not
achievable: the achievable range is not 15°–65°. -/
theorem launch_angle_floor_is_20 :
    updatedLaunchAngle 200 0 (1/2) = 1/10 ∧
    launchAngleDegrees (1/10) = 20 ∧
    ¬ ∃ dx dy p, 1/10 ≤ p ∧ p ≤ 9/10 ∧
        launchAngleDegrees (updatedLaunchAngle dx dy p) < 20 := by
  refine ⟨?_, by norm_num [launchAngleDegrees], ?_⟩
  · unfold updatedLaunchAngle
    rw [if_pos (by norm_num)]
    rw [show (-(200 : ℚ) / 200) = -1 by norm_num,
        min_eq_right (by norm_num : (-1 : ℚ) ≤ 1), max_self]
    norm_num
  · rintro ⟨dx, dy, p, hp1, hp2, hlt⟩
    obtain ⟨ha, _⟩ := updatedLaunchAngle_mem dx dy p hp1 hp2
    unfold launchAngleDegrees at hlt
    linarith

/-- Witness for C6: a neutral gesture (no drag beyond the dead zone) keeps
the parameter at 0.5 and the angle at 40°, inside all proved bounds. -/
theorem launch_angle_range_witness :
    20 ≤ launchAngleDegrees (updatedLaunchAngle 0 0 (1/2)) ∧
    launchAngleDegrees (updatedLaunchAngle 0 0 (1/2)) ≤ 60 := by
  have h := launch_angle_range 0 0 (1/2) (by norm_num) (by norm_num)
  exact ⟨h.2.2.2.1, h.2.2.2.2.1⟩

/-- **C8**: running the checkpoint-unlock check when every boundary crossed
so far is already unlocked leaves the whole game state (coins, upgrades,
checkpoint set) unchanged and issues no save; a save is issued exactly when
some checkpoint transitions from locked to unlocked. -/
theorem checkpoint_unlock_idempotent (g : Game) :
    ((ZONE_CITY_START ≤ g.startingZ + g.distance → g.checkpoints.city = true) →
     (ZONE_DESERT_START ≤ g.startingZ + g.distance → g.checkpoints.desert = true) →
     (ZONE_FOREST_START ≤ g.startingZ + g.distance → g.checkpoints.forest = true) →
     checkAndUnlockCheckpoints g = (g, false)) ∧
    ((checkAndUnlockCheckpoints g).2 = true ↔
      (g.checkpoints.city = false ∧ ZONE_CITY_START ≤ g.startingZ + g.distance) ∨
      (g.checkpoints.desert = false ∧ ZONE_DESERT_START ≤ g.startingZ + g.distance) ∨
      (g.checkpoints.forest = false ∧ ZONE_FOREST_START ≤ g.startingZ + g.distance)) := by
  constructor
  · intro h1 h2 h3
    have e1 : (decide (ZONE_CITY_START ≤ g.startingZ + g.distance)
        && !g.checkpoints.city) = false := by
      by_cases hc : ZONE_CITY_START ≤ g.startingZ + g.distance
      · simp [h1 hc]
      · simp [hc]
    have e2 : (decide (ZONE_DESERT_START ≤ g.startingZ + g.distance)
        && !g.checkpoints.desert) = false := by
      by_cases hc : ZONE_DESERT_START ≤ g.startingZ + g.distance
      · simp [h2 hc]
      · simp [hc]
    have e3 : (decide (ZONE_FOREST_START ≤ g.startingZ + g.distance)
        && !g.checkpoints.forest) = false := by
      by_cases hc : ZONE_FOREST_START ≤ g.startingZ + g.distance
      · simp [h3 hc]
      · simp [hc]
    simp only [checkAndUnlockCheckpoints, e1, e2, e3, Bool.or_false]
  · simp only [checkAndUnlockCheckpoints, Bool.or_eq_true, Bool.and_eq_true,
      decide_eq_true_eq, Bool.not_eq_true']
    constructor
    · rintro ((h | h) | h)
      · exact Or.inl ⟨h.2, h.1⟩
      · exact Or.inr (Or.inl ⟨h.2, h.1⟩)
      · exact Or.inr (Or.inr ⟨h.2, h.1⟩)
    · rintro (h | h | h)
      · exact Or.inl (Or.inl ⟨h.2, h.1⟩)
      · exact Or.inl (Or.inr ⟨h.2, h.1⟩)
      · exact Or.inr ⟨h.2, h.1⟩

/-- Witness for C8: on a state with every checkpoint already unlocked and
position past all boundaries, the check changes nothing and saves nothing. -/
theorem checkpoint_unlock_idempotent_witness :
    checkAndUnlockCheckpoints { baseGame with
      distance := 5000, checkpoints := ⟨true, true, true, true⟩ } =
    ({ baseGame with
       distance := 5000, checkpoints := ⟨true, true, true, true⟩ }, false) :=
  (checkpoint_unlock_idempotent _).1 (fun _ => rfl) (fun _ => rfl) (fun _ => rfl)

/-- **C9**: the `highestDistance` a save writes equals the maximum of the
current run distance and the previously saved value, so it is never smaller
than the stored value and never negative. -/
theorem saved_highest_monotone (dist : ℚ) (hdist : 0 ≤ dist) (coins : ℤ)
    (u : Upgrades) (cp : Checkpoints) (store : Option (Option RawSave))
    (prev : ℚ) (hprev : getSavedHighestDistance store = .ok prev) :
    saveProgress dist coins u cp store =
      .ok { coins := some coins, highestDistance := some (max dist prev),
            upgrades := some u, checkpoints := some cp } ∧
    prev ≤ max dist prev ∧ 0 ≤ max dist prev := by
  refine ⟨?_, le_max_right _ _, le_trans hdist (le_max_left _ _)⟩
  unfold saveProgress
  rw [hprev]
  rfl

/-- Witness for C9: first save at run distance 5 over an empty store. -/
theorem saved_highest_monotone_witness :
    saveProgress 5 0 Upgrades.initial Checkpoints.initial none =
      .ok { coins := some 0, highestDistance := some (max 5 0),
            upgrades := some Upgrades.initial,
            checkpoints := some Checkpoints.initial } ∧
    (0 : ℚ) ≤ max 5 0 ∧ (0 : ℚ) ≤ max 5 0 :=
  saved_highest_monotone 5 (by norm_num) 0 Upgrades.initial
    Checkpoints.initial none 0 rfl

/-! ## Tick-level theorems -/

/-- **C2** (amended): once a collision is detected during a `Flying` tick,
the state is `Crashed` immediately and no further position/velocity
integration occurs (the tick result carries exactly the already-integrated
position and velocity) — but the victory and stop checks of the same tick
still execute after the collision (they are not short-circuited), which the
counterexample shows can settle the run a second time. -/
theorem collision_crashes_tick (dt : ℚ) (keys : Keys) (halfExt : Vec3)
    (obstacles : List Obstacle) (rand : ℚ) (g : Game)
    (hfly : g.gameState = .flying)
    (hhit : (firstCollision
        (boxAt (integrate dt keys rand g).planePos halfExt)
        (integrate dt keys rand g).planePos.z obstacles).isSome = true) :
    (updatePhysics dt keys halfExt obstacles rand g).1.gameState = .crashed ∧
    (updatePhysics dt keys halfExt obstacles rand g).1.velocity =
      (integrate dt keys rand g).velocity ∧
    (updatePhysics dt keys halfExt obstacles rand g).1.planePos =
      (integrate dt keys rand g).planePos := by
  have h1 : ¬(g.gameState ≠ GState.flying) := by
    rw [hfly]; exact fun h => h rfl
  have hhit' : (firstCollision
      (boxAt (checkAndUnlockCheckpoints (integrate dt keys rand g)).1.planePos
        halfExt)
      (checkAndUnlockCheckpoints (integrate dt keys rand g)).1.planePos.z
      obstacles).isSome = true := hhit
  simp only [updatePhysics]
  rw [if_neg h1, hhit']
  simp only [if_true]
  split_ifs <;> exact ⟨rfl, rfl, rfl⟩

/-- **C7**: reaching absolute position ≥ 6000 on the travel axis while
`Flying` (with no obstacle collision that tick) settles the run as a
victory: terminal `Crashed` state, coins increased by `floor(distance) +
10000`, which is the ordinary crash award plus the fixed bonus and strictly
exceeds it. -/
theorem victory_bonus_settlement (dt : ℚ) (keys : Keys) (halfExt : Vec3)
    (obstacles : List Obstacle) (rand : ℚ) (g : Game)
    (hfly : g.gameState = .flying)
    (hnohit : (firstCollision
        (boxAt (integrate dt keys rand g).planePos halfExt)
        (integrate dt keys rand g).planePos.z obstacles).isSome = false)
    (hz : VICTORY_Z ≤ (integrate dt keys rand g).planePos.z) :
    (updatePhysics dt keys halfExt obstacles rand g).1.gameState = .crashed ∧
    (updatePhysics dt keys halfExt obstacles rand g).1.coins =
      g.coins + victoryCoinsEarned (integrate dt keys rand g).distance ∧
    victoryCoinsEarned (integrate dt keys rand g).distance =
      crashCoinsEarned (integrate dt keys rand g).distance + 10000 ∧
    crashCoinsEarned (integrate dt keys rand g).distance <
      victoryCoinsEarned (integrate dt keys rand g).distance := by
  have h1 : ¬(g.gameState ≠ GState.flying) := by
    rw [hfly]; exact fun h => h rfl
  have hnohit' : (firstCollision
      (boxAt (checkAndUnlockCheckpoints (integrate dt keys rand g)).1.planePos
        halfExt)
      (checkAndUnlockCheckpoints (integrate dt keys rand g)).1.planePos.z
      obstacles).isSome = false := hnohit
  have hz' : VICTORY_Z ≤
      (checkAndUnlockCheckpoints (integrate dt keys rand g)).1.planePos.z := hz
  simp only [updatePhysics]
  rw [if_neg h1, hnohit']
  simp only [Bool.false_eq_true, if_false]
  rw [if_pos hz']
  refine ⟨rfl, rfl, rfl, ?_⟩
  unfold crashCoinsEarned victoryCoinsEarned
  linarith

/-! ## Concrete tick instances -/

def keysNone : Keys := ⟨false, false, false, false⟩

/-- A large static obstacle straddling the victory line. -/
def obstacleAt6000 : Obstacle := ⟨6000, ⟨⟨-5, 0, 5995⟩, ⟨5, 20, 6005⟩⟩⟩

/-- A flying state gliding across z = 6000 with everything already
unlocked. -/
def flyingAt6000 : Game :=
  { baseGame with gameState := .flying, planePos := ⟨0, 10, 6000⟩,
                  checkpoints := ⟨true, true, true, true⟩ }

/-- The state `integrate` produces from `flyingAt6000` with `dt = 0`:
only the distance bookkeeping changes. -/
def flyingAt6000Post : Game :=
  { flyingAt6000 with distance := 6000, highestDistanceThisRun := 6000 }

theorem integrate_flyingAt6000 :
    integrate 0 keysNone (1/2) flyingAt6000 = flyingAt6000Post := by
  norm_num [integrate, dragStep, dragFactor, Vec3.lengthSq, Vec3.scale,
    flyingAt6000, flyingAt6000Post, baseGame, Upgrades.initial, keysNone,
    GRAVITY, PLANE_HEIGHT]

theorem collision_flyingAt6000 :
    (firstCollision
      (boxAt (integrate 0 keysNone (1/2) flyingAt6000).planePos ⟨1, 1, 1⟩)
      (integrate 0 keysNone (1/2) flyingAt6000).planePos.z
      [obstacleAt6000]).isSome = true := by
  rw [integrate_flyingAt6000]
  have hnear : decide
      (|obstacleAt6000.posZ - flyingAt6000Post.planePos.z| > 50) = false :=
    decide_eq_false
      (by norm_num [obstacleAt6000, flyingAt6000Post, flyingAt6000, baseGame])
  have d1 : decide (obstacleAt6000.box.max.x <
      (boxAt flyingAt6000Post.planePos ⟨1, 1, 1⟩).min.x) = false :=
    decide_eq_false (by
      norm_num [boxAt, obstacleAt6000, flyingAt6000Post, flyingAt6000, baseGame])
  have d2 : decide (obstacleAt6000.box.min.x >
      (boxAt flyingAt6000Post.planePos ⟨1, 1, 1⟩).max.x) = false :=
    decide_eq_false (by
      norm_num [boxAt, obstacleAt6000, flyingAt6000Post, flyingAt6000, baseGame])
  have d3 : decide (obstacleAt6000.box.max.y <
      (boxAt flyingAt6000Post.planePos ⟨1, 1, 1⟩).min.y) = false :=
    decide_eq_false (by
      norm_num [boxAt, obstacleAt6000, flyingAt6000Post, flyingAt6000, baseGame])
  have d4 : decide (obstacleAt6000.box.min.y >
      (boxAt flyingAt6000Post.planePos ⟨1, 1, 1⟩).max.y) = false :=
    decide_eq_false (by
      norm_num [boxAt, obstacleAt6000, flyingAt6000Post, flyingAt6000, baseGame])
  have d5 : decide (obstacleAt6000.box.max.z <
      (boxAt flyingAt6000Post.planePos ⟨1, 1, 1⟩).min.z) = false :=
    decide_eq_false (by
      norm_num [boxAt, obstacleAt6000, flyingAt6000Post, flyingAt6000, baseGame])
  have d6 : decide (obstacleAt6000.box.min.z >
      (boxAt flyingAt6000Post.planePos ⟨1, 1, 1⟩).max.z) = false :=
    decide_eq_false (by
      norm_num [boxAt, obstacleAt6000, flyingAt6000Post, flyingAt6000, baseGame])
  simp only [firstCollision, List.find?, Box3.intersectsBox, hnear, d1, d2,
    d3, d4, d5, d6, Bool.or_self, Bool.or_false, Bool.not_false,
    Bool.true_and, Option.isSome_some]

theorem unlock_flyingAt6000Post :
    checkAndUnlockCheckpoints flyingAt6000Post = (flyingAt6000Post, false) := by
  simp [checkAndUnlockCheckpoints, flyingAt6000Post, flyingAt6000, baseGame]

/-- Counterexample for C2: a tick of `flyingAt6000` against an obstacle
straddling the victory line.  The collision is detected and `crash()` runs
(award 6000 coins, one save) — but the tick then still evaluates the victory
check, so `victory()` also runs (award 6000 + 10000 more coins, a second
save): final coins 22000 and two saves, where the claim ("no victory check,
no stop check after the collision") predicts 6000 coins and one save. -/
theorem collision_tick_still_settles_victory :
    (updatePhysics 0 keysNone ⟨1, 1, 1⟩ [obstacleAt6000] (1/2)
        flyingAt6000).1.gameState = .crashed ∧
    (updatePhysics 0 keysNone ⟨1, 1, 1⟩ [obstacleAt6000] (1/2)
        flyingAt6000).1.coins = 22000 ∧
    (updatePhysics 0 keysNone ⟨1, 1, 1⟩ [obstacleAt6000] (1/2)
        flyingAt6000).2 = 2 := by
  have hu1 : (checkAndUnlockCheckpoints flyingAt6000Post).1 = flyingAt6000Post := by
    rw [unlock_flyingAt6000Post]
  have hu2 : (checkAndUnlockCheckpoints flyingAt6000Post).2 = false := by
    rw [unlock_flyingAt6000Post]
  have hcol : (firstCollision (boxAt flyingAt6000Post.planePos ⟨1, 1, 1⟩)
      flyingAt6000Post.planePos.z [obstacleAt6000]).isSome = true := by
    have h := collision_flyingAt6000
    rwa [integrate_flyingAt6000] at h
  have hvic : VICTORY_Z ≤ (crash flyingAt6000Post).planePos.z := by
    norm_num [crash, VICTORY_Z, flyingAt6000Post, flyingAt6000, baseGame]
  simp only [updatePhysics]
  rw [if_neg (show ¬(flyingAt6000.gameState ≠ GState.flying) from
        fun h => h rfl)]
  rw [integrate_flyingAt6000, hu1, hu2, hcol]
  simp only [Bool.false_eq_true, if_false, if_true]
  rw [if_pos hvic]
  refine ⟨rfl, ?_, rfl⟩
  norm_num [victory, crash, victoryCoinsEarned, crashCoinsEarned,
    flyingAt6000Post, flyingAt6000, baseGame]

/-- Witness for C2: the amended theorem applied at the concrete colliding
tick above. -/
theorem collision_crashes_tick_witness :
    (updatePhysics 0 keysNone ⟨1, 1, 1⟩ [obstacleAt6000] (1/2)
        flyingAt6000).1.gameState = .crashed ∧
    (updatePhysics 0 keysNone ⟨1, 1, 1⟩ [obstacleAt6000] (1/2)
        flyingAt6000).1.velocity =
      (integrate 0 keysNone (1/2) flyingAt6000).velocity :=
  ⟨(collision_crashes_tick 0 keysNone ⟨1, 1, 1⟩ [obstacleAt6000] (1/2)
      flyingAt6000 rfl collision_flyingAt6000).1,
   (collision_crashes_tick 0 keysNone ⟨1, 1, 1⟩ [obstacleAt6000] (1/2)
      flyingAt6000 rfl collision_flyingAt6000).2.1⟩

/-- Witness for C7: the same flying state crossing z = 6000 with no
obstacles settles as a victory with the bonus coins. -/
theorem victory_bonus_settlement_witness :
    (updatePhysics 0 keysNone ⟨1, 1, 1⟩ [] (1/2)
        flyingAt6000).1.gameState = .crashed ∧
    (updatePhysics 0 keysNone ⟨1, 1, 1⟩ [] (1/2) flyingAt6000).1.coins =
      flyingAt6000.coins +
        victoryCoinsEarned (integrate 0 keysNone (1/2) flyingAt6000).distance ∧
    crashCoinsEarned (integrate 0 keysNone (1/2) flyingAt6000).distance <
      victoryCoinsEarned (integrate 0 keysNone (1/2) flyingAt6000).distance := by
  have hz : VICTORY_Z ≤ (integrate 0 keysNone (1/2) flyingAt6000).planePos.z := by
    rw [integrate_flyingAt6000]
    norm_num [flyingAt6000Post, flyingAt6000, baseGame, VICTORY_Z]
  have h := victory_bonus_settlement 0 keysNone ⟨1, 1, 1⟩ [] (1/2) flyingAt6000
    rfl rfl hz
  exact ⟨h.1, h.2.1, h.2.2.2⟩
